import Mathlib

/-!
# Combat Reflex (hit-reflex-trainer) — verification of the session scheduler and its collaborators

A shallow embedding of the reaction-training app's core logic:

* `src/utils/difficultyConfig.js` — difficulty tables and the uniform integer draws
  (`getRandomInterval`, `getRandomComboSize`, `getRandomStrikeInterval`, `getRandomComboRest`);
  JavaScript's `Math.random()` is made explicit as a rational draw `q` with `0 ≤ q < 1`, and
  `Math.floor (Math.random() * (max - min + 1)) + min` becomes `⌊q * (max - min + 1)⌋ + min`.
* `src/utils/profileUtils.js` — `createDefaultProfile`, `validateProfile`, `mergeWithDefaults`.
* `src/utils/statsCalculator.js` — `calculateSessionStats` (numeric fields).
* `src/context/TrainingContext.jsx` — `trainingReducer`, `addToHistory`, `MAX_HISTORY_ENTRIES`.
* `src/App.jsx` — the scheduler effects of `TrainingApp` (single-mode cycle, combo scheduling,
  session-completion effects, stop), modelled as pure state-transformers on a `SchedulerState`
  record; timer handles become `Bool`/count flags, and wall-clock time an explicit `now` field.
* `src/components/ResultsScreen.jsx` — the stats memo's completion rate.
-/

namespace CombatReflex

/-! ## Phases (`TRAINING_PHASES` of TrainingContext.jsx) -/

/-- The seven phase values of `TRAINING_PHASES`. -/
inductive Phase
  | IDLE
  | COUNTDOWN
  | TRAINING
  | MID_REST
  | SESSION_END
  | BREAK
  | COMPLETE
deriving DecidableEq, Repr

/-! ## difficultyConfig.js -/

/-- A `{min, max}` range object. -/
structure IntRange where
  min : Int
  max : Int
deriving DecidableEq, Repr

/-- A difficulty entry of the `DIFFICULTIES` array. -/
structure Difficulty where
  id : String
  name : String
  minInterval : Int
  maxInterval : Int
  totalHits : Int
deriving DecidableEq, Repr

/-- The `DIFFICULTIES` array. -/
def DIFFICULTIES : List Difficulty :=
  [⟨"very-easy", "Very Easy", 2500, 4000, 18⟩,
   ⟨"easy", "Easy", 1500, 2500, 30⟩,
   ⟨"normal", "Normal", 1000, 1800, 45⟩,
   ⟨"hard", "Hard", 600, 1200, 68⟩,
   ⟨"very-hard", "Very Hard", 300, 800, 92⟩]

/-- `getRandomInterval(difficulty)`:
`Math.floor(Math.random() * (maxInterval - minInterval + 1)) + minInterval`,
with the `Math.random()` draw `q ∈ [0,1)` made explicit. -/
def getRandomInterval (difficulty : Difficulty) (q : ℚ) : Int :=
  ⌊q * ((difficulty.maxInterval - difficulty.minInterval + 1 : Int) : ℚ)⌋ + difficulty.minInterval

/-- A combo configuration entry of the `COMBO_SETTINGS` array. -/
structure ComboConfig where
  id : String
  comboSize : IntRange
  strikeInterval : IntRange
  restBetweenCombos : IntRange
  totalCombos : Int
deriving DecidableEq, Repr

/-- The `COMBO_SETTINGS` array. -/
def COMBO_SETTINGS : List ComboConfig :=
  [⟨"very-easy", ⟨1, 2⟩, ⟨600, 800⟩, ⟨5000, 6000⟩, 9⟩,
   ⟨"easy", ⟨1, 3⟩, ⟨500, 700⟩, ⟨4000, 5000⟩, 12⟩,
   ⟨"normal", ⟨1, 3⟩, ⟨400, 600⟩, ⟨3000, 4000⟩, 15⟩,
   ⟨"hard", ⟨1, 4⟩, ⟨300, 500⟩, ⟨2000, 3000⟩, 17⟩,
   ⟨"very-hard", ⟨1, 5⟩, ⟨200, 400⟩, ⟨1500, 2500⟩, 20⟩]

/-- `getComboSettings(difficultyId)`: `COMBO_SETTINGS.find(c => c.id === difficultyId)`. -/
def getComboSettings (difficultyId : String) : Option ComboConfig :=
  COMBO_SETTINGS.find? (fun c => c.id == difficultyId)

/-- `getRandomComboSize(comboConfig)` over the `comboSize` range. -/
def getRandomComboSize (comboConfig : ComboConfig) (q : ℚ) : Int :=
  ⌊q * ((comboConfig.comboSize.max - comboConfig.comboSize.min + 1 : Int) : ℚ)⌋ +
    comboConfig.comboSize.min

/-- `getRandomStrikeInterval(comboConfig)` over the `strikeInterval` range. -/
def getRandomStrikeInterval (comboConfig : ComboConfig) (q : ℚ) : Int :=
  ⌊q * ((comboConfig.strikeInterval.max - comboConfig.strikeInterval.min + 1 : Int) : ℚ)⌋ +
    comboConfig.strikeInterval.min

/-- `getRandomComboRest(comboConfig)` over the `restBetweenCombos` range. -/
def getRandomComboRest (comboConfig : ComboConfig) (q : ℚ) : Int :=
  ⌊q * ((comboConfig.restBetweenCombos.max - comboConfig.restBetweenCombos.min + 1 : Int) : ℚ)⌋ +
    comboConfig.restBetweenCombos.min

/-- `BREAK_DURATION_MS` (30 seconds). -/
def BREAK_DURATION_MS : Int := 30000

/-- Bounds of the draw `⌊q * (hi - lo + 1)⌋ + lo` shared by all the random generators. -/
theorem floor_draw_bounds (lo hi : Int) (q : ℚ) (hlh : lo ≤ hi) (h0 : 0 ≤ q) (h1 : q < 1) :
    lo ≤ ⌊q * ((hi - lo + 1 : Int) : ℚ)⌋ + lo ∧ ⌊q * ((hi - lo + 1 : Int) : ℚ)⌋ + lo ≤ hi := by
  have hn : (0 : Int) < hi - lo + 1 := by omega
  have hnq : (0 : ℚ) < ((hi - lo + 1 : Int) : ℚ) := by exact_mod_cast hn
  have hge : 0 ≤ ⌊q * ((hi - lo + 1 : Int) : ℚ)⌋ :=
    Int.floor_nonneg.mpr (mul_nonneg h0 (le_of_lt hnq))
  have hlt : ⌊q * ((hi - lo + 1 : Int) : ℚ)⌋ < hi - lo + 1 := by
    rw [Int.floor_lt]
    calc q * ((hi - lo + 1 : Int) : ℚ) < 1 * ((hi - lo + 1 : Int) : ℚ) :=
          mul_lt_mul_of_pos_right h1 hnq
      _ = ((hi - lo + 1 : Int) : ℚ) := one_mul _

  constructor <;> omega

/-- C7: for every difficulty with `minInterval ≤ maxInterval` and every random draw
`q ∈ [0,1)`, `getRandomInterval` returns an integer in the inclusive range
`[minInterval, maxInterval]`. -/
theorem getRandomInterval_in_range (difficulty : Difficulty) (q : ℚ)
    (hr : difficulty.minInterval ≤ difficulty.maxInterval) (h0 : 0 ≤ q) (h1 : q < 1) :
    difficulty.minInterval ≤ getRandomInterval difficulty q ∧
      getRandomInterval difficulty q ≤ difficulty.maxInterval := by
  unfold getRandomInterval
  exact floor_draw_bounds difficulty.minInterval difficulty.maxInterval q hr h0 h1

/-- Witness for C7: sampling the "normal" range `[1000, 1800]` at draw `1/2` lies in
`[1000, 1800]`. -/
theorem getRandomInterval_in_range_witness :
    (1000 : Int) ≤ getRandomInterval ⟨"normal", "Normal", 1000, 1800, 45⟩ (1/2) ∧
      getRandomInterval ⟨"normal", "Normal", 1000, 1800, 45⟩ (1/2) ≤ 1800 :=
  getRandomInterval_in_range ⟨"normal", "Normal", 1000, 1800, 45⟩ (1/2)
    (by norm_num) (by norm_num) (by norm_num)

/-! ## `scheduleCombo` strike offsets (App.jsx)

In `scheduleCombo`, `cumulativeDelay` starts at `0`; strike `i` is scheduled at the current
`cumulativeDelay`, and after every strike except the last a freshly sampled
`getRandomStrikeInterval` is added. `draws i` is the random draw for the interval added after
strike `i`. -/

/-- The `cumulativeDelay` value at which strike `i` of a combo is scheduled. -/
def comboStrikeOffset (comboConfig : ComboConfig) (draws : ℕ → ℚ) : ℕ → Int
  | 0 => 0
  | i + 1 => comboStrikeOffset comboConfig draws i + getRandomStrikeInterval comboConfig (draws i)

/-- The offsets (from the combo's start) at which `scheduleCombo` fires the strikes of a combo
of `comboSize` strikes. -/
def comboStrikeOffsets (comboConfig : ComboConfig) (draws : ℕ → ℚ) (comboSize : ℕ) : List Int :=
  (List.range comboSize).map (comboStrikeOffset comboConfig draws)

/-- The delay of the combo-complete timer: last strike's offset plus the 300 ms display window. -/
def comboEndDelay (comboConfig : ComboConfig) (draws : ℕ → ℚ) (comboSize : ℕ) : Int :=
  comboStrikeOffset comboConfig draws (comboSize - 1) + 300

/-- C8: with `comboSize` sampled as 3 and a degenerate `strikeInterval` range `[100, 100]`,
`scheduleCombo` fires the three strikes at offsets 0 ms, 100 ms and 200 ms from the combo's
start, whatever the fresh per-strike draws are. -/
theorem scheduleCombo_offsets_degenerate (comboConfig : ComboConfig) (draws : ℕ → ℚ)
    (hmin : comboConfig.strikeInterval.min = 100) (hmax : comboConfig.strikeInterval.max = 100)
    (hd : ∀ i, 0 ≤ draws i ∧ draws i < 1) :
    comboStrikeOffsets comboConfig draws 3 = [0, 100, 200] := by
  have hs : ∀ i, getRandomStrikeInterval comboConfig (draws i) = 100 := by
    intro i
    unfold getRandomStrikeInterval
    rw [hmin, hmax]
    have h1 : ((100 - 100 + 1 : Int) : ℚ) = 1 := by norm_num
    rw [h1, mul_one]
    have hz : ⌊draws i⌋ = 0 := by
      rw [Int.floor_eq_zero_iff]
      exact ⟨(hd i).1, (hd i).2⟩
    omega
  have h3 : List.range 3 = [0, 1, 2] := rfl
  simp [comboStrikeOffsets, h3, comboStrikeOffset, hs]

/-- Witness for C8: the normal combo config with `strikeInterval` forced to `[100, 100]`,
constant draw `1/2`. -/
theorem scheduleCombo_offsets_degenerate_witness :
    comboStrikeOffsets ⟨"normal", ⟨1, 3⟩, ⟨100, 100⟩, ⟨3000, 4000⟩, 15⟩ (fun _ => 1/2) 3 =
      [0, 100, 200] :=
  scheduleCombo_offsets_degenerate ⟨"normal", ⟨1, 3⟩, ⟨100, 100⟩, ⟨3000, 4000⟩, 15⟩
    (fun _ => 1/2) rfl rfl (fun _ => ⟨by norm_num, by norm_num⟩)

/-! ## statsCalculator.js and the ResultsScreen stats memo -/

/-- JavaScript's `Math.round`: round half toward positive infinity, `⌊x + 1/2⌋`. -/
def jsRound (q : ℚ) : Int := ⌊q + 1/2⌋

/-- The numeric fields of the `SessionStats` object returned by `calculateSessionStats`
(the formatted-string fields are presentation only and omitted). -/
structure SessionStats where
  durationMs : Int
  hitsCompleted : Int
  totalHits : Int
  completionRate : Int
  averagePace : Int
deriving DecidableEq, Repr

/-- `calculateSessionStats(startTime, endTime, hitsCompleted, totalHits)`. -/
def calculateSessionStats (startTime endTime hitsCompleted totalHits : Int) : SessionStats :=
  { durationMs := endTime - startTime
    hitsCompleted := hitsCompleted
    totalHits := totalHits
    completionRate :=
      if 0 < totalHits then jsRound ((hitsCompleted : ℚ) / (totalHits : ℚ) * 100) else 0
    averagePace :=
      if 1 < hitsCompleted then
        jsRound (((endTime - startTime : Int) : ℚ) / ((hitsCompleted - 1 : Int) : ℚ))
      else 0 }

/-- The completion rate of the `ResultsScreen` stats memo:
`totalExpectedHits > 0 ? Math.round((hitsCompleted / totalExpectedHits) * 100) : 100`. -/
def resultsCompletionRate (hitsCompleted totalExpectedHits : Int) : Int :=
  if 0 < totalExpectedHits then
    jsRound ((hitsCompleted : ℚ) / (totalExpectedHits : ℚ) * 100)
  else 100

/-! ## Session history (`TrainingContext.jsx`) -/

/-- A session history entry as recorded by `TrainingApp`'s completion effects. Single-mode
entries leave the combo counters `none`; the `id` and `timestamp` metadata stamped on by
`addToHistory` carry no training data and are omitted. -/
structure SessionHistoryEntry where
  mode : String
  trainingType : String
  difficultyId : String
  hitsCompleted : Int
  totalHits : Int
  combosCompleted : Option Int
  totalCombos : Option Int
  durationMs : Int
  sessionNumber : Int
  totalSessions : Int
deriving DecidableEq, Repr

/-- `MAX_HISTORY_ENTRIES`. -/
def MAX_HISTORY_ENTRIES : ℕ := 10

/-- `addToHistory(entry)`: prepend the (id/timestamp-stamped) entry to the previous history and
truncate with `.slice(0, MAX_HISTORY_ENTRIES)`. -/
def addToHistory (entry : SessionHistoryEntry) (prev : List SessionHistoryEntry) :
    List SessionHistoryEntry :=
  (entry :: prev).take MAX_HISTORY_ENTRIES

/-- Folding a sequence of `addToHistory` calls preserves the cap. -/
theorem addToHistory_foldl_le (es : List SessionHistoryEntry) :
    ∀ l : List SessionHistoryEntry, l.length ≤ MAX_HISTORY_ENTRIES →
      (es.foldl (fun h x => addToHistory x h) l).length ≤ MAX_HISTORY_ENTRIES := by
  induction es with
  | nil => intro l hl; simpa using hl
  | cons e es ih =>
    intro l _
    exact ih (addToHistory e l) (List.length_take_le _ _)

/-- C6: each `addToHistory` call yields a history of at most `MAX_HISTORY_ENTRIES` entries with
the new entry first; any sequence of calls starting from a history within the cap stays within
the cap; and on overflow the oldest (last) entry is the one evicted. -/
theorem addToHistory_bounded (e : SessionHistoryEntry) (l es : List SessionHistoryEntry) :
    (addToHistory e l).length ≤ MAX_HISTORY_ENTRIES
    ∧ (addToHistory e l).head? = some e
    ∧ (l.length ≤ MAX_HISTORY_ENTRIES →
        (es.foldl (fun h x => addToHistory x h) l).length ≤ MAX_HISTORY_ENTRIES)
    ∧ (l.length = MAX_HISTORY_ENTRIES → addToHistory e l = e :: l.dropLast) := by
  refine ⟨List.length_take_le _ _, rfl, fun hl => addToHistory_foldl_le es l hl, fun hl => ?_⟩
  show (e :: l).take MAX_HISTORY_ENTRIES = e :: l.dropLast
  rw [List.dropLast_eq_take, hl]
  rfl

/-- A concrete single-mode history entry, for witnesses. -/
def sampleEntry : SessionHistoryEntry :=
  ⟨"both", "single", "normal", 10, 10, none, none, 12000, 1, 2⟩

/-- Witness for C6: adding to a full 10-entry history keeps the length at 10, puts the new
entry first and drops the oldest. -/
theorem addToHistory_bounded_witness :
    (addToHistory sampleEntry (List.replicate 10 sampleEntry)).length ≤ MAX_HISTORY_ENTRIES
    ∧ (addToHistory sampleEntry (List.replicate 10 sampleEntry)).head? = some sampleEntry
    ∧ ([sampleEntry].foldl (fun h x => addToHistory x h)
        (List.replicate 10 sampleEntry)).length ≤ MAX_HISTORY_ENTRIES
    ∧ addToHistory sampleEntry (List.replicate 10 sampleEntry) =
        sampleEntry :: (List.replicate 10 sampleEntry).dropLast := by
  have h := addToHistory_bounded sampleEntry (List.replicate 10 sampleEntry) [sampleEntry]
  exact ⟨h.1, h.2.1, h.2.2.1 (by decide), h.2.2.2 (by decide)⟩

/-- `totalExpectedHits` of the `ResultsScreen` stats memo: the sum of `totalHits` over the
session history. -/
def totalExpectedHits (sessionHistory : List SessionHistoryEntry) : Int :=
  (sessionHistory.map (fun session => session.totalHits)).sum

/-- Counterexample to C9: in the results summary, the completion rate with
`totalExpectedHits = 0` is 100, not 0 as the claim states. -/
theorem resultsCompletionRate_zero_total_is_100 :
    resultsCompletionRate 5 0 = 100 ∧ ¬ resultsCompletionRate 5 0 = 0 := by
  constructor <;> decide

/-- C9 (amended): the statistics calculator's completion rate equals
`round(hitsCompleted / totalHits × 100)` for positive totals and 0 when `totalHits = 0`, and
`completionRate(20, 30) = 67` there; the results summary computes the same rounded ratio for
positive totals but yields 100, not 0, when its total is 0. -/
theorem completionRate_characterisation (startTime endTime hitsCompleted totalHits : Int) :
    (calculateSessionStats 0 60000 20 30).completionRate = 67
    ∧ (calculateSessionStats startTime endTime hitsCompleted 0).completionRate = 0
    ∧ resultsCompletionRate 20 30 = 67
    ∧ resultsCompletionRate hitsCompleted 0 = 100
    ∧ (0 < totalHits →
        (calculateSessionStats startTime endTime hitsCompleted totalHits).completionRate =
          jsRound ((hitsCompleted : ℚ) / (totalHits : ℚ) * 100)
        ∧ resultsCompletionRate hitsCompleted totalHits =
          jsRound ((hitsCompleted : ℚ) / (totalHits : ℚ) * 100)) := by
  refine ⟨by norm_num [calculateSessionStats, jsRound], by simp [calculateSessionStats],
    by norm_num [resultsCompletionRate, jsRound], by simp [resultsCompletionRate], fun ht => ?_⟩
  constructor
  · simp [calculateSessionStats, ht]
  · simp [resultsCompletionRate, ht]

/-- Witness for C9 (amended): the characterisation at `hitsCompleted = 20`, `totalHits = 30`. -/
theorem completionRate_characterisation_witness :
    (calculateSessionStats 0 60000 20 30).completionRate = 67
    ∧ (calculateSessionStats 0 60000 20 0).completionRate = 0
    ∧ resultsCompletionRate 20 30 = 67
    ∧ resultsCompletionRate 20 0 = 100
    ∧ ((calculateSessionStats 0 60000 20 30).completionRate =
          jsRound ((20 : ℚ) / (30 : ℚ) * 100)
        ∧ resultsCompletionRate 20 30 = jsRound ((20 : ℚ) / (30 : ℚ) * 100)) := by
  have h := completionRate_characterisation 0 60000 20 30
  exact ⟨h.1, h.2.1, h.2.2.1, h.2.2.2.1, h.2.2.2.2 (by norm_num)⟩

/-! ## profileUtils.js — default profile, merge, validation -/

/-- `DEFAULT_PROFILE_ID`. -/
def DEFAULT_PROFILE_ID : String := "default"

/-- The `combo` block of a `DifficultySettings` object. -/
structure ComboSettingsBlock where
  comboSize : IntRange
  strikeInterval : IntRange
  restBetweenCombos : IntRange
  totalCombos : Int
deriving DecidableEq, Repr

/-- The `rest` block of a `DifficultySettings` object. -/
structure RestSettings where
  enabled : Bool
  breakDuration : Int
deriving DecidableEq, Repr

/-- A fully populated per-difficulty settings object (`createDifficultySettings` shape). -/
structure DifficultySettings where
  id : String
  name : String
  minInterval : Int
  maxInterval : Int
  totalHits : IntRange
  combo : ComboSettingsBlock
  rest : RestSettings
deriving DecidableEq, Repr

/-- A `TrainingProfile`. -/
structure Profile where
  id : String
  name : String
  isDefault : Bool
  isReadOnly : Bool
  createdAt : Int
  updatedAt : Int
  difficulties : List DifficultySettings
deriving DecidableEq, Repr

/-- `createDifficultySettings(difficulty, comboSettings)`. -/
def createDifficultySettings (difficulty : Difficulty) (comboSettings : ComboConfig) :
    DifficultySettings :=
  { id := difficulty.id
    name := difficulty.name
    minInterval := difficulty.minInterval
    maxInterval := difficulty.maxInterval
    totalHits := ⟨difficulty.totalHits, difficulty.totalHits⟩
    combo := ⟨comboSettings.comboSize, comboSettings.strikeInterval,
              comboSettings.restBetweenCombos, comboSettings.totalCombos⟩
    rest := ⟨true, BREAK_DURATION_MS⟩ }

/-- `createDefaultProfile()`: one settings object per difficulty, pairing `DIFFICULTIES[i]`
with `COMBO_SETTINGS[i]`. -/
def createDefaultProfile : Profile :=
  { id := DEFAULT_PROFILE_ID
    name := "Default"
    isDefault := true
    isReadOnly := true
    createdAt := 0
    updatedAt := 0
    difficulties := (DIFFICULTIES.zip COMBO_SETTINGS).map fun p =>
      createDifficultySettings p.1 p.2 }

/-! ### Partial profiles (the argument shape of `mergeWithDefaults`)

JavaScript objects may omit any leaf; an omitted leaf is `none`. -/

/-- A `{min?, max?}` range with possibly missing endpoints. -/
structure PartialRange where
  min : Option Int
  max : Option Int
deriving DecidableEq, Repr

/-- A possibly partial `combo` block. -/
structure PartialComboBlock where
  comboSize : Option PartialRange
  strikeInterval : Option PartialRange
  restBetweenCombos : Option PartialRange
  totalCombos : Option Int
deriving DecidableEq, Repr

/-- A possibly partial `rest` block. -/
structure PartialRestSettings where
  enabled : Option Bool
  breakDuration : Option Int
deriving DecidableEq, Repr

/-- A possibly partial per-difficulty override. The `id` is what
`partial.difficulties?.find(d => d.id === defaultDiff.id)` matches on. -/
structure PartialDifficulty where
  id : String
  name : Option String
  minInterval : Option Int
  maxInterval : Option Int
  totalHits : Option PartialRange
  combo : Option PartialComboBlock
  rest : Option PartialRestSettings
deriving DecidableEq, Repr

/-- A possibly partial profile, the input of `mergeWithDefaults`. -/
structure PartialProfile where
  id : Option String
  name : Option String
  isDefault : Option Bool
  isReadOnly : Option Bool
  createdAt : Option Int
  updatedAt : Option Int
  difficulties : Option (List PartialDifficulty)
deriving DecidableEq, Repr

/-- JavaScript `||` on an optional string: a missing or empty string falls through to the
default. -/
def jsOrString (value : Option String) (dflt : String) : String :=
  match value with
  | some s => if s = "" then dflt else s
  | none => dflt

/-- The `custom ? {min: custom.min ?? dflt.min, max: custom.max ?? dflt.max} : {...dflt}`
pattern used for every range in `mergeWithDefaults`. -/
def mergeRange (custom : Option PartialRange) (dflt : IntRange) : IntRange :=
  match custom with
  | some r => ⟨r.min.getD dflt.min, r.max.getD dflt.max⟩
  | none => dflt

/-- The object literal built in `mergeWithDefaults` when a custom override for a default
difficulty exists: every leaf is the override's leaf when present, else the default's leaf. -/
def mergeDifficulty (defaultDiff : DifficultySettings) (customDiff : PartialDifficulty) :
    DifficultySettings :=
  { id := if customDiff.id = "" then defaultDiff.id else customDiff.id
    name := jsOrString customDiff.name defaultDiff.name
    minInterval := customDiff.minInterval.getD defaultDiff.minInterval
    maxInterval := customDiff.maxInterval.getD defaultDiff.maxInterval
    totalHits := mergeRange customDiff.totalHits defaultDiff.totalHits
    combo :=
      match customDiff.combo with
      | some c =>
        { comboSize := mergeRange c.comboSize defaultDiff.combo.comboSize
          strikeInterval := mergeRange c.strikeInterval defaultDiff.combo.strikeInterval
          restBetweenCombos := mergeRange c.restBetweenCombos defaultDiff.combo.restBetweenCombos
          totalCombos := c.totalCombos.getD defaultDiff.combo.totalCombos }
      | none => defaultDiff.combo
    rest :=
      match customDiff.rest with
      | some r => ⟨r.enabled.getD defaultDiff.rest.enabled,
                   r.breakDuration.getD defaultDiff.rest.breakDuration⟩
      | none => defaultDiff.rest }

/-- The per-default-difficulty step of `mergeWithDefaults`: look up a custom override by id,
keep the default whole when there is none. -/
def mergeDifficultyEntry (customDiffs : List PartialDifficulty)
    (defaultDiff : DifficultySettings) : DifficultySettings :=
  match customDiffs.find? (fun d => d.id == defaultDiff.id) with
  | none => defaultDiff
  | some customDiff => mergeDifficulty defaultDiff customDiff

/-- `mergeWithDefaults(partial)`. The fresh UUID (`generateUUID()`) and `Date.now()` used for
missing metadata are explicit parameters. -/
def mergeWithDefaults (freshId : String) (now : Int) (part : PartialProfile) : Profile :=
  { id := jsOrString part.id freshId
    name := jsOrString part.name "Unnamed Profile"
    isDefault := part.isDefault.getD false
    isReadOnly := part.isReadOnly.getD false
    createdAt := part.createdAt.getD now
    updatedAt := part.updatedAt.getD now
    difficulties := createDefaultProfile.difficulties.map
      (mergeDifficultyEntry (part.difficulties.getD [])) }

/-- A range override is valid when it is either absent or fully given with `min ≤ max`
(a valid `DifficultyProfile` input never overrides half a range). -/
def partialRangeOK : Option PartialRange → Bool
  | none => true
  | some r =>
    match r.min, r.max with
    | some a, some b => a ≤ b
    | none, none => true
    | _, _ => false

/-- Validity of the flat `minInterval`/`maxInterval` pair of an override: both absent, or both
given and ordered. -/
def intervalPairOK : Option Int → Option Int → Bool
  | some a, some b => a ≤ b
  | none, none => true
  | _, _ => false

/-- A per-difficulty override of a valid `DifficultyProfile` input: every range it carries is
fully given and ordered. -/
def partialDifficultyValid (d : PartialDifficulty) : Bool :=
  intervalPairOK d.minInterval d.maxInterval &&
  partialRangeOK d.totalHits &&
  (match d.combo with
   | none => true
   | some c =>
     partialRangeOK c.comboSize && partialRangeOK c.strikeInterval &&
       partialRangeOK c.restBetweenCombos)

/-- A valid `DifficultyProfile` input for `mergeWithDefaults`. -/
def partialProfileValid (p : PartialProfile) : Bool :=
  (p.difficulties.getD []).all partialDifficultyValid

/-- Every range of a merged settings object satisfies `min ≤ max`. -/
def orderedSettings (d : DifficultySettings) : Prop :=
  d.minInterval ≤ d.maxInterval ∧
  d.totalHits.min ≤ d.totalHits.max ∧
  d.combo.comboSize.min ≤ d.combo.comboSize.max ∧
  d.combo.strikeInterval.min ≤ d.combo.strikeInterval.max ∧
  d.combo.restBetweenCombos.min ≤ d.combo.restBetweenCombos.max

instance (d : DifficultySettings) : Decidable (orderedSettings d) := by
  unfold orderedSettings; infer_instance

/-- A valid (absent or fully given and ordered) range override merges to an ordered range. -/
theorem mergeRange_ordered (custom : Option PartialRange) (dflt : IntRange)
    (hd : dflt.min ≤ dflt.max) (hc : partialRangeOK custom = true) :
    (mergeRange custom dflt).min ≤ (mergeRange custom dflt).max := by
  cases custom with
  | none => exact hd
  | some r =>
    cases hmin : r.min with
    | none =>
      cases hmax : r.max with
      | none => simpa [mergeRange, hmin, hmax] using hd
      | some b => rw [partialRangeOK, hmin, hmax] at hc; simp at hc
    | some a =>
      cases hmax : r.max with
      | none => rw [partialRangeOK, hmin, hmax] at hc; simp at hc
      | some b =>
        rw [partialRangeOK, hmin, hmax] at hc
        simp only [decide_eq_true_eq] at hc
        simpa [mergeRange, hmin, hmax] using hc

/-- Merging a valid override into an ordered default keeps every range ordered. -/
theorem mergeDifficulty_ordered (defaultDiff : DifficultySettings)
    (customDiff : PartialDifficulty) (hdd : orderedSettings defaultDiff)
    (hcd : partialDifficultyValid customDiff = true) :
    orderedSettings (mergeDifficulty defaultDiff customDiff) := by
  obtain ⟨h1, h2, h3, h4, h5⟩ := hdd
  simp only [partialDifficultyValid, Bool.and_eq_true] at hcd
  obtain ⟨⟨hiv, hth⟩, hcombo⟩ := hcd
  have hflat : customDiff.minInterval.getD defaultDiff.minInterval ≤
      customDiff.maxInterval.getD defaultDiff.maxInterval := by
    cases hmn : customDiff.minInterval with
    | none =>
      cases hmx : customDiff.maxInterval with
      | none => simpa using h1
      | some b => rw [hmn, hmx] at hiv; simp [intervalPairOK] at hiv
    | some a =>
      cases hmx : customDiff.maxInterval with
      | none => rw [hmn, hmx] at hiv; simp [intervalPairOK] at hiv
      | some b =>
        rw [hmn, hmx] at hiv
        simp only [intervalPairOK, decide_eq_true_eq] at hiv
        simpa using hiv
  cases hc : customDiff.combo with
  | none =>
    exact ⟨by simpa [mergeDifficulty] using hflat,
      by simpa [mergeDifficulty] using mergeRange_ordered _ _ h2 hth,
      by simpa [mergeDifficulty, hc] using h3,
      by simpa [mergeDifficulty, hc] using h4,
      by simpa [mergeDifficulty, hc] using h5⟩
  | some c =>
    rw [hc] at hcombo
    simp only [Bool.and_eq_true] at hcombo
    obtain ⟨⟨hcs, hsi⟩, hrc⟩ := hcombo
    exact ⟨by simpa [mergeDifficulty] using hflat,
      by simpa [mergeDifficulty] using mergeRange_ordered _ _ h2 hth,
      by simpa [mergeDifficulty, hc] using mergeRange_ordered _ _ h3 hcs,
      by simpa [mergeDifficulty, hc] using mergeRange_ordered _ _ h4 hsi,
      by simpa [mergeDifficulty, hc] using mergeRange_ordered _ _ h5 hrc⟩

/-- Merging never changes a difficulty's id: the override was found by that very id. -/
theorem mergeDifficultyEntry_id (customDiffs : List PartialDifficulty)
    (dd : DifficultySettings) : (mergeDifficultyEntry customDiffs dd).id = dd.id := by
  unfold mergeDifficultyEntry
  cases hfind : customDiffs.find? (fun d => d.id == dd.id) with
  | none => rfl
  | some cd =>
    have hp : cd.id = dd.id := by simpa using List.find?_some hfind
    simp only [mergeDifficulty, hp]
    split <;> rfl

/-- Every built-in default difficulty has ordered ranges. -/
theorem defaults_ordered : ∀ dd ∈ createDefaultProfile.difficulties, orderedSettings dd := by
  decide

/-- A partial profile overriding only `comboSize.min` of the "normal" difficulty. -/
def comboSizeMinOverride : PartialProfile :=
  { id := some "p1", name := some "Leaf", isDefault := none, isReadOnly := none,
    createdAt := some 0, updatedAt := some 0,
    difficulties := some
      [{ id := "normal", name := none, minInterval := none, maxInterval := none,
         totalHits := none,
         combo := some
           { comboSize := some ⟨some 2, none⟩, strikeInterval := none,
             restBetweenCombos := none, totalCombos := none },
         rest := none }] }

/-- A partial profile overriding nothing at all. -/
def emptyPartialProfile : PartialProfile := ⟨none, none, none, none, none, none, none⟩

/-- C4: `mergeWithDefaults` always returns a profile carrying all five difficulties fully
populated; when the input is a valid `DifficultyProfile` (every range it overrides is fully
given and ordered) every range of the output satisfies `min ≤ max`; and overriding a single
nested leaf (`comboSize.min` of "normal") keeps exactly that leaf while every omitted leaf
falls back to the built-in default for that exact leaf, not the whole difficulty block. -/
theorem mergeWithDefaults_total_and_ordered (freshId : String) (now : Int)
    (part : PartialProfile) :
    ((mergeWithDefaults freshId now part).difficulties.map fun d => d.id) =
        ["very-easy", "easy", "normal", "hard", "very-hard"]
    ∧ (partialProfileValid part = true →
        ∀ d ∈ (mergeWithDefaults freshId now part).difficulties, orderedSettings d)
    ∧ (mergeWithDefaults "fresh-id" 0 comboSizeMinOverride).difficulties.find?
        (fun d => d.id == "normal") =
        some { id := "normal", name := "Normal", minInterval := 1000, maxInterval := 1800,
               totalHits := ⟨45, 45⟩,
               combo := ⟨⟨2, 3⟩, ⟨400, 600⟩, ⟨3000, 4000⟩, 15⟩,
               rest := ⟨true, 30000⟩ } := by
  refine ⟨?_, ?_, by decide⟩
  · simp only [mergeWithDefaults, List.map_map]
    have h1 : List.map ((fun d => d.id) ∘ mergeDifficultyEntry (part.difficulties.getD []))
        createDefaultProfile.difficulties =
        List.map (fun d => d.id) createDefaultProfile.difficulties :=
      List.map_congr_left (fun dd _ => mergeDifficultyEntry_id (part.difficulties.getD []) dd)
    rw [h1]
    decide
  · intro hvalid d hd
    simp only [mergeWithDefaults, List.mem_map] at hd
    obtain ⟨dd, hdd, rfl⟩ := hd
    unfold mergeDifficultyEntry
    cases hfind : (part.difficulties.getD []).find? (fun x => x.id == dd.id) with
    | none => exact defaults_ordered dd hdd
    | some cd =>
      have hmem := List.mem_of_find?_eq_some hfind
      have hvalidcd : partialDifficultyValid cd = true :=
        List.all_eq_true.mp hvalid cd hmem
      exact mergeDifficulty_ordered dd cd (defaults_ordered dd hdd) hvalidcd

/-- Witness for C4: the theorem applied to an empty partial profile, which is trivially a
valid input. -/
theorem mergeWithDefaults_total_and_ordered_witness :
    ((mergeWithDefaults "u" 0 emptyPartialProfile).difficulties.map fun d => d.id) =
        ["very-easy", "easy", "normal", "hard", "very-hard"]
    ∧ (∀ d ∈ (mergeWithDefaults "u" 0 emptyPartialProfile).difficulties, orderedSettings d)
    ∧ (mergeWithDefaults "fresh-id" 0 comboSizeMinOverride).difficulties.find?
        (fun d => d.id == "normal") =
        some { id := "normal", name := "Normal", minInterval := 1000, maxInterval := 1800,
               totalHits := ⟨45, 45⟩,
               combo := ⟨⟨2, 3⟩, ⟨400, 600⟩, ⟨3000, 4000⟩, 15⟩,
               rest := ⟨true, 30000⟩ } := by
  have h := mergeWithDefaults_total_and_ordered "u" 0 emptyPartialProfile
  exact ⟨h.1, h.2.1 (by decide), h.2.2⟩

/-! ### `validateProfile` -/

/-- An entry of the `RECOMMENDED_VALUES` table. -/
structure Recommended where
  minInterval : IntRange
  maxInterval : IntRange
  totalHits : IntRange
  breakDuration : IntRange
  explanation : String
deriving DecidableEq, Repr

/-- `RECOMMENDED_VALUES[id]`. -/
def RECOMMENDED_VALUES (id : String) : Option Recommended :=
  if id = "very-easy" then
    some ⟨⟨2000, 3000⟩, ⟨3500, 5000⟩, ⟨15, 20⟩, ⟨30000, 45000⟩,
      "Beginner-friendly, allows full recovery between strikes"⟩
  else if id = "easy" then
    some ⟨⟨1200, 1800⟩, ⟨2200, 3000⟩, ⟨25, 35⟩, ⟨25000, 35000⟩,
      "Gentle warmup progression for building stamina"⟩
  else if id = "normal" then
    some ⟨⟨800, 1200⟩, ⟨1500, 2000⟩, ⟨40, 50⟩, ⟨20000, 30000⟩,
      "Balanced challenge for regular training sessions"⟩
  else if id = "hard" then
    some ⟨⟨500, 800⟩, ⟨1000, 1400⟩, ⟨60, 75⟩, ⟨15000, 25000⟩,
      "Fast reactions required, high intensity workout"⟩
  else if id = "very-hard" then
    some ⟨⟨200, 400⟩, ⟨600, 1000⟩, ⟨85, 100⟩, ⟨10000, 20000⟩,
      "Elite level training with minimal rest between strikes"⟩
  else none

/-- The hard errors `validateProfile` pushes for one difficulty (in source order). -/
def validateDifficultyErrors (diff : DifficultySettings) (index : ℕ) : List String :=
  let diffName := if diff.name = "" then "Difficulty " ++ toString (index + 1) else diff.name
  (if diff.minInterval ≤ 0 then [diffName ++ ": minInterval must be positive"] else [])
    ++ (if diff.maxInterval ≤ 0 then [diffName ++ ": maxInterval must be positive"] else [])
    ++ (if diff.maxInterval < diff.minInterval then
          [diffName ++ ": minInterval cannot be greater than maxInterval"] else [])
    ++ (if diff.totalHits.min ≤ 0 ∨ diff.totalHits.max ≤ 0 then
          [diffName ++ ": totalHits must be positive"] else [])
    ++ (if diff.totalHits.max < diff.totalHits.min then
          [diffName ++ ": totalHits min cannot be greater than max"] else [])
    ++ (if diff.rest.breakDuration < 0 then
          [diffName ++ ": breakDuration cannot be negative"] else [])

/-- The soft warnings `validateProfile` pushes for one difficulty: only the `minInterval` and
`maxInterval` deviations from `RECOMMENDED_VALUES` are reported. -/
def validateDifficultyWarnings (diff : DifficultySettings) (index : ℕ) : List String :=
  let diffName := if diff.name = "" then "Difficulty " ++ toString (index + 1) else diff.name
  match RECOMMENDED_VALUES diff.id with
  | none => []
  | some recommended =>
    (if diff.minInterval < recommended.minInterval.min then
        [diffName ++ ": minInterval (" ++ toString diff.minInterval ++
          "ms) is below recommended minimum (" ++ toString recommended.minInterval.min ++ "ms)"]
      else [])
      ++ (if recommended.minInterval.max < diff.minInterval then
            [diffName ++ ": minInterval (" ++ toString diff.minInterval ++
              "ms) is above recommended maximum (" ++ toString recommended.minInterval.max ++
              "ms)"]
          else [])
      ++ (if diff.maxInterval < recommended.maxInterval.min then
            [diffName ++ ": maxInterval (" ++ toString diff.maxInterval ++
              "ms) is below recommended minimum (" ++ toString recommended.maxInterval.min ++
              "ms)"]
          else [])
      ++ (if recommended.maxInterval.max < diff.maxInterval then
            [diffName ++ ": maxInterval (" ++ toString diff.maxInterval ++
              "ms) is above recommended maximum (" ++ toString recommended.maxInterval.max ++
              "ms)"]
          else [])

/-- The `{errors, warnings}` result of `validateProfile`. -/
structure ValidationResult where
  errors : List String
  warnings : List String
deriving DecidableEq, Repr

/-- `!profile.name || profile.name.trim() === ''`: the name is missing, empty or
whitespace-only, i.e. every character is whitespace. -/
def isBlank (s : String) : Bool := s.toList.all Char.isWhitespace

/-- `validateProfile(profile)`. -/
def validateProfile (profile : Profile) : ValidationResult :=
  { errors :=
      (if isBlank profile.name then ["Profile name is required"] else [])
        ++ ((profile.difficulties.enum.map fun p => validateDifficultyErrors p.2 p.1).flatten)
    warnings :=
      (profile.difficulties.enum.map fun p => validateDifficultyWarnings p.2 p.1).flatten }

/-- The checks `validateProfile` actually performs on one difficulty. -/
def diffRangeChecksOK (d : DifficultySettings) : Prop :=
  0 < d.minInterval ∧ 0 < d.maxInterval ∧ d.minInterval ≤ d.maxInterval ∧
  0 < d.totalHits.min ∧ 0 < d.totalHits.max ∧ d.totalHits.min ≤ d.totalHits.max ∧
  0 ≤ d.rest.breakDuration

instance (d : DifficultySettings) : Decidable (diffRangeChecksOK d) := by
  unfold diffRangeChecksOK; infer_instance

/-- The full §3 range invariant of a `DifficultyProfile`, as the spec states it:
`min ≤ max` on every range, all counts at least 1, all intervals positive, and a non-negative
break duration. -/
def specRangeInvariant (d : DifficultySettings) : Prop :=
  0 < d.minInterval ∧ 0 < d.maxInterval ∧ d.minInterval ≤ d.maxInterval ∧
  1 ≤ d.totalHits.min ∧ d.totalHits.min ≤ d.totalHits.max ∧
  1 ≤ d.combo.comboSize.min ∧ d.combo.comboSize.min ≤ d.combo.comboSize.max ∧
  0 < d.combo.strikeInterval.min ∧ d.combo.strikeInterval.min ≤ d.combo.strikeInterval.max ∧
  0 < d.combo.restBetweenCombos.min ∧
  d.combo.restBetweenCombos.min ≤ d.combo.restBetweenCombos.max ∧
  1 ≤ d.combo.totalCombos ∧ 0 ≤ d.rest.breakDuration

instance (d : DifficultySettings) : Decidable (specRangeInvariant d) := by
  unfold specRangeInvariant; infer_instance

/-- A single conditional singleton is empty exactly when its condition fails. -/
theorem ite_singleton_eq_nil (c : Prop) [Decidable c] (m : String) :
    (if c then [m] else []) = [] ↔ ¬ c := by
  split <;> simp_all

/-- The per-difficulty error list is empty exactly when the checked conditions hold. -/
theorem validateDifficultyErrors_eq_nil (diff : DifficultySettings) (index : ℕ) :
    validateDifficultyErrors diff index = [] ↔ diffRangeChecksOK diff := by
  simp only [validateDifficultyErrors, diffRangeChecksOK, List.append_eq_nil,
    ite_singleton_eq_nil, not_or]
  omega

/-- The joined per-difficulty error lists are empty exactly when every difficulty passes the
checks (the running index does not matter). -/
theorem errors_join_eq_nil (l : List DifficultySettings) : ∀ n : ℕ,
    ((List.enumFrom n l).map fun p => validateDifficultyErrors p.2 p.1).flatten = [] ↔
      ∀ d ∈ l, diffRangeChecksOK d := by
  induction l with
  | nil => intro n; simp
  | cons d ds ih =>
    intro n
    simp only [List.enumFrom, List.map_cons, List.flatten_cons, List.append_eq_nil,
      List.mem_cons, validateDifficultyErrors_eq_nil, ih (n + 1)]
    constructor
    · rintro ⟨hd, hds⟩ x (rfl | hx)
      · exact hd
      · exact hds x hx
    · intro h
      exact ⟨h d (Or.inl rfl), fun x hx => h x (Or.inr hx)⟩

/-- Counterexample to C5: a profile whose "normal" difficulty has an inverted `comboSize`
range (min 5 > max 1) — violating the §3 range invariant — passes `validateProfile` with no
hard error, because combo ranges are never checked. -/
theorem validateProfile_misses_combo_ranges :
    (validateProfile
      { id := "custom-1", name := "Custom", isDefault := false, isReadOnly := false,
        createdAt := 0, updatedAt := 0,
        difficulties :=
          [{ id := "normal", name := "Normal", minInterval := 1000, maxInterval := 1800,
             totalHits := ⟨45, 45⟩,
             combo := ⟨⟨5, 1⟩, ⟨400, 600⟩, ⟨3000, 4000⟩, 15⟩,
             rest := ⟨true, 30000⟩ }] }).errors = []
    ∧ ¬ specRangeInvariant
        { id := "normal", name := "Normal", minInterval := 1000, maxInterval := 1800,
          totalHits := ⟨45, 45⟩,
          combo := ⟨⟨5, 1⟩, ⟨400, 600⟩, ⟨3000, 4000⟩, 15⟩,
          rest := ⟨true, 30000⟩ } := by
  constructor <;> decide

/-- C5 (amended): `validateProfile` reports a hard error exactly when the profile name is
blank or some difficulty fails one of the checked conditions — positive `minInterval` and
`maxInterval`, `minInterval ≤ maxInterval`, positive `totalHits` bounds,
`totalHits.min ≤ totalHits.max`, non-negative `breakDuration`. Combo ranges are never
checked, and recommended-range deviations surface only in the separate warnings list, which
the error characterisation does not involve, so warnings never block. -/
theorem validateProfile_errors_characterisation (p : Profile) :
    (validateProfile p).errors = [] ↔
      (isBlank p.name = false ∧ ∀ d ∈ p.difficulties, diffRangeChecksOK d) := by
  simp only [validateProfile, List.append_eq_nil, ite_singleton_eq_nil, Bool.not_eq_true]
  exact and_congr Iff.rfl (errors_join_eq_nil p.difficulties 0)

/-- Witness for C5 (amended): the characterisation applied to the default profile, which has a
non-blank name and passes every check. -/
theorem validateProfile_errors_characterisation_witness :
    (validateProfile createDefaultProfile).errors = [] :=
  (validateProfile_errors_characterisation createDefaultProfile).mpr (by decide)

/-! ## TrainingContext.jsx — `trainingReducer` -/

/-- `TRAINING_MODES`. -/
def TRAINING_MODES : List String := ["punches", "kicks", "both"]

/-- `TRAINING_TYPES`. -/
def TRAINING_TYPES : List String := ["single", "combo"]

/-- The membership test `Object.values(TRAINING_PHASES).includes(payload)` together with the
identification of the accepted string: `some` exactly on the seven phase names. -/
def phaseOfString : String → Option Phase
  | "IDLE" => some .IDLE
  | "COUNTDOWN" => some .COUNTDOWN
  | "TRAINING" => some .TRAINING
  | "MID_REST" => some .MID_REST
  | "SESSION_END" => some .SESSION_END
  | "BREAK" => some .BREAK
  | "COMPLETE" => some .COMPLETE
  | _ => none

/-- `DEFAULT_DIFFICULTY = DIFFICULTIES[2]` ("normal"). -/
def DEFAULT_DIFFICULTY : Difficulty := ⟨"normal", "Normal", 1000, 1800, 45⟩

/-- The reducer's state (`TrainingState` of TrainingContext.jsx). -/
structure TrainingState where
  mode : String
  trainingType : String
  difficulty : Difficulty
  numberOfSessions : Int
  phase : Phase
  currentSession : Int
  hitsCompleted : Int
  combosCompleted : Int
deriving DecidableEq, Repr

/-- `initialState` of TrainingContext.jsx. -/
def initialState : TrainingState :=
  { mode := "both", trainingType := "single", difficulty := DEFAULT_DIFFICULTY,
    numberOfSessions := 2, phase := .IDLE, currentSession := 1,
    hitsCompleted := 0, combosCompleted := 0 }

/-- The reducer's actions (`ACTIONS`); `SET_DIFFICULTY`'s dynamic payload (settings object or
difficulty id) is split into two constructors. -/
inductive ReducerAction
  | SET_MODE (payload : String)
  | SET_TRAINING_TYPE (payload : String)
  | SET_DIFFICULTY_OBJECT (payload : Difficulty)
  | SET_DIFFICULTY_ID (payload : String)
  | SET_NUMBER_OF_SESSIONS (payload : Int)
  | SET_PHASE (payload : String)
  | INCREMENT_SESSION
  | SET_HITS_COMPLETED (payload : Int)
  | INCREMENT_HITS
  | INCREMENT_COMBOS
  | RESET_SESSION
  | RESET_ALL
deriving DecidableEq, Repr

/-- `trainingReducer(state, action)`. -/
def trainingReducer (state : TrainingState) (action : ReducerAction) : TrainingState :=
  match action with
  | .SET_MODE payload =>
    if TRAINING_MODES.contains payload then { state with mode := payload } else state
  | .SET_TRAINING_TYPE payload =>
    if TRAINING_TYPES.contains payload then { state with trainingType := payload } else state
  | .SET_DIFFICULTY_OBJECT payload =>
    if payload.id = "" then state else { state with difficulty := payload }
  | .SET_DIFFICULTY_ID payload =>
    match DIFFICULTIES.find? (fun d => d.id == payload) with
    | some difficulty => { state with difficulty := difficulty }
    | none => state
  | .SET_NUMBER_OF_SESSIONS payload =>
    { state with numberOfSessions := min 4 (max 1 payload) }
  | .SET_PHASE payload =>
    match phaseOfString payload with
    | some ph => { state with phase := ph }
    | none => state
  | .INCREMENT_SESSION => { state with currentSession := state.currentSession + 1 }
  | .SET_HITS_COMPLETED payload => { state with hitsCompleted := payload }
  | .INCREMENT_HITS => { state with hitsCompleted := state.hitsCompleted + 1 }
  | .INCREMENT_COMBOS => { state with combosCompleted := state.combosCompleted + 1 }
  | .RESET_SESSION => { state with hitsCompleted := 0, combosCompleted := 0 }
  | .RESET_ALL =>
    { state with phase := .IDLE, currentSession := 1, hitsCompleted := 0, combosCompleted := 0 }

/-- The phase-transition relation of spec §4.2, stated from the spec for comparison: the drawn
transitions plus the stop transition (any non-terminal phase → COMPLETE) and
COMPLETE → IDLE. -/
def specReachablePhase : Phase → Phase → Bool
  | .IDLE, .COUNTDOWN => true
  | .COUNTDOWN, .TRAINING => true
  | .TRAINING, .SESSION_END => true
  | .TRAINING, .MID_REST => true
  | .MID_REST, .TRAINING => true
  | .SESSION_END, .BREAK => true
  | .SESSION_END, .COMPLETE => true
  | .BREAK, .COUNTDOWN => true
  | .COMPLETE, .IDLE => true
  | .COUNTDOWN, .COMPLETE => true
  | .TRAINING, .COMPLETE => true
  | .MID_REST, .COMPLETE => true
  | .BREAK, .COMPLETE => true
  | _, _ => false

/-- Counterexample to C3: §4.2 does not allow IDLE → TRAINING, yet `SET_PHASE` accepts any
member of the phase enumeration from any current phase, so this request is not rejected and
the state changes. -/
theorem setPhase_accepts_unreachable :
    specReachablePhase Phase.IDLE Phase.TRAINING = false
    ∧ (trainingReducer initialState (.SET_PHASE "TRAINING")).phase = Phase.TRAINING
    ∧ trainingReducer initialState (.SET_PHASE "TRAINING") ≠ initialState := by
  refine ⟨rfl, rfl, ?_⟩
  decide

/-- C3 (amended): `SET_PHASE` validates only membership in the phase enumeration — a request
naming no phase value is rejected with the state unchanged, while a request naming any phase
value is accepted from every current phase; reachability per §4.2 is not checked. -/
theorem trainingReducer_SET_PHASE (s : TrainingState) (payload : String) :
    (phaseOfString payload = none → trainingReducer s (.SET_PHASE payload) = s)
    ∧ ∀ ph, phaseOfString payload = some ph →
        trainingReducer s (.SET_PHASE payload) = { s with phase := ph } := by
  constructor
  · intro h; simp [trainingReducer, h]
  · intro ph h; simp [trainingReducer, h]

/-- Witness for C3 (amended): a non-phase string is rejected from the initial state; the
phase name "BREAK" is accepted from IDLE (even though §4.2 does not reach BREAK from IDLE). -/
theorem trainingReducer_SET_PHASE_witness :
    trainingReducer initialState (.SET_PHASE "NOT_A_PHASE") = initialState
    ∧ trainingReducer initialState (.SET_PHASE "BREAK") =
        { initialState with phase := Phase.BREAK } :=
  ⟨(trainingReducer_SET_PHASE initialState "NOT_A_PHASE").1 rfl,
   (trainingReducer_SET_PHASE initialState "BREAK").2 Phase.BREAK rfl⟩

/-! ## App.jsx — the `TrainingApp` scheduler effects

`TrainingApp` drives the run with `useEffect` hooks over the context state plus local
component state. The model combines both into one record: timer refs become pending
flags/counts (a cleared ref is a cancelled timer), and wall-clock time is the explicit `now`
field advanced by elapsing delays. -/

/-- The orchestrator's combined state. -/
structure SchedulerState where
  phase : Phase
  mode : String
  trainingType : String
  difficultyId : String
  numberOfSessions : Int
  currentSession : Int
  hitsCompleted : Int
  combosCompleted : Int
  sessionTotalHits : Option Int
  currentAction : Option String
  actionTimerPending : Bool
  comboTimersPending : ℕ
  sessionHistory : List SessionHistoryEntry
  sessionStartTime : Int
  trainingEndTime : Option Int
  now : Int
deriving DecidableEq, Repr

/-- The single-mode session-completion effect of `TrainingApp`: when training in single mode
with a truthy `sessionTotalHits` that `hitsCompleted` has reached, clear the pending action
timer, clear the presented action, play the end sound, append the history entry
(duration = now − sessionStartTime, final counters) and move to BREAK when sessions remain,
else set the end time, release the wake lock and move to COMPLETE. -/
def singleCompletionEffect (s : SchedulerState) : SchedulerState :=
  match s.sessionTotalHits with
  | some target =>
    if s.phase = Phase.TRAINING ∧ s.trainingType = "single" ∧ target ≠ 0 ∧
        target ≤ s.hitsCompleted then
      let entry : SessionHistoryEntry :=
        { mode := s.mode, trainingType := s.trainingType, difficultyId := s.difficultyId,
          hitsCompleted := s.hitsCompleted, totalHits := target,
          combosCompleted := none, totalCombos := none,
          durationMs := s.now - s.sessionStartTime,
          sessionNumber := s.currentSession, totalSessions := s.numberOfSessions }
      let s1 := { s with actionTimerPending := false, currentAction := none,
                         sessionHistory := addToHistory entry s.sessionHistory }
      if s.currentSession < s.numberOfSessions then { s1 with phase := Phase.BREAK }
      else { s1 with phase := Phase.COMPLETE, trainingEndTime := some s.now }
    else s
  | none => s

/-- One stimulus/display cycle of the single-hit loop: the scheduled action timer fires after
`interval` ms (presenting `action` and playing its sound), the 800 ms display window elapses
(clearing the action and incrementing `hitsCompleted`), then React re-renders: the completion
effect runs, and when the session continues the training effect's cleanup-and-reschedule
leaves a fresh action timer pending. -/
def singleCycle (interval : Int) (action : String) (s : SchedulerState) : SchedulerState :=
  if s.phase = Phase.TRAINING ∧ s.trainingType = "single" ∧ s.actionTimerPending then
    let fired := { s with now := s.now + interval, currentAction := some action }
    let displayed := { fired with now := fired.now + 800, currentAction := none,
                                  hitsCompleted := fired.hitsCompleted + 1 }
    let completed := singleCompletionEffect displayed
    if completed.phase = Phase.TRAINING then { completed with actionTimerPending := true }
    else completed
  else s

/-- Iterated cycles; each event is an (interval draw, chosen action) pair. -/
def runCycles (events : List (Int × String)) (s : SchedulerState) : SchedulerState :=
  events.foldl (fun st ev => singleCycle ev.1 ev.2 st) s

/-- The phases visited: the initial phase followed by the phase after each cycle. -/
def cycleTrace (events : List (Int × String)) (s : SchedulerState) : List Phase :=
  (events.scanl (fun st ev => singleCycle ev.1 ev.2 st) s).map (fun st => st.phase)

/-- A 2-session single-mode run at the top of its first TRAINING phase with a fixed sampled
target of 10 hits. -/
def initSingleState : SchedulerState :=
  { phase := Phase.TRAINING, mode := "both", trainingType := "single",
    difficultyId := "normal", numberOfSessions := 2, currentSession := 1,
    hitsCompleted := 0, combosCompleted := 0, sessionTotalHits := some 10,
    currentAction := none, actionTimerPending := true, comboTimersPending := 0,
    sessionHistory := [], sessionStartTime := 0, trainingEndTime := none, now := 0 }

/-- Counterexample to C1: in the 2-session single-mode run with fixed target 10, the phase
after the 10th stimulus/display cycle is BREAK, and SESSION_END is never visited at any point
of the run — completion transitions TRAINING → BREAK directly, with no SESSION_END step. -/
theorem single_run_never_visits_SESSION_END :
    Phase.SESSION_END ∉ cycleTrace (List.replicate 10 (1000, "punch")) initSingleState
    ∧ (cycleTrace (List.replicate 10 (1000, "punch")) initSingleState).getLast? =
        some Phase.BREAK := by
  constructor <;> decide

/-- C1 (amended): once `hitsCompleted` reaches the sampled target in single mode, the
completion effect cancels the pending action timer, clears the presented action, appends a
SessionHistoryEntry with duration = now − sessionStartTime and the final counters, and
transitions directly to BREAK when `currentSession < numberOfSessions`, else to COMPLETE —
never through SESSION_END. A 2-session run with fixed target 10 is still TRAINING after 9
stimulus/display cycles and in BREAK with 10 recorded hits after exactly 10. -/
theorem singleCompletion_direct_to_BREAK (s : SchedulerState) (target : Int)
    (hph : s.phase = Phase.TRAINING) (hty : s.trainingType = "single")
    (hst : s.sessionTotalHits = some target) (ht0 : target ≠ 0)
    (hge : target ≤ s.hitsCompleted) :
    ((singleCompletionEffect s).actionTimerPending = false
      ∧ (singleCompletionEffect s).currentAction = none
      ∧ (singleCompletionEffect s).sessionHistory =
          addToHistory
            { mode := s.mode, trainingType := s.trainingType, difficultyId := s.difficultyId,
              hitsCompleted := s.hitsCompleted, totalHits := target,
              combosCompleted := none, totalCombos := none,
              durationMs := s.now - s.sessionStartTime,
              sessionNumber := s.currentSession, totalSessions := s.numberOfSessions }
            s.sessionHistory
      ∧ (s.currentSession < s.numberOfSessions →
          (singleCompletionEffect s).phase = Phase.BREAK)
      ∧ (¬ s.currentSession < s.numberOfSessions →
          (singleCompletionEffect s).phase = Phase.COMPLETE)
      ∧ (singleCompletionEffect s).phase ≠ Phase.SESSION_END)
    ∧ (runCycles (List.replicate 9 (1000, "punch")) initSingleState).phase = Phase.TRAINING
    ∧ (runCycles (List.replicate 10 (1000, "punch")) initSingleState).phase = Phase.BREAK
    ∧ (runCycles (List.replicate 10 (1000, "punch")) initSingleState).hitsCompleted = 10 := by
  refine ⟨?_, by decide, by decide, by decide⟩
  have hcond : s.phase = Phase.TRAINING ∧ s.trainingType = "single" ∧ target ≠ 0 ∧
      target ≤ s.hitsCompleted := ⟨hph, hty, ht0, hge⟩
  simp only [singleCompletionEffect, hst]
  rw [if_pos hcond]
  by_cases hlt : s.currentSession < s.numberOfSessions
  · rw [if_pos hlt]
    exact ⟨rfl, rfl, rfl, fun _ => rfl, fun h => absurd hlt h, fun h => Phase.noConfusion h⟩
  · rw [if_neg hlt]
    exact ⟨rfl, rfl, rfl, fun h => absurd h hlt, fun _ => rfl, fun h => Phase.noConfusion h⟩

/-- A single-mode state at the instant the 10th hit has been counted. -/
def completedSingleState : SchedulerState :=
  { initSingleState with hitsCompleted := 10, now := 18000 }

/-- Witness for C1 (amended): the completion effect at the concrete just-completed state. -/
theorem singleCompletion_direct_to_BREAK_witness :
    (singleCompletionEffect completedSingleState).actionTimerPending = false
    ∧ (singleCompletionEffect completedSingleState).currentAction = none
    ∧ (singleCompletionEffect completedSingleState).phase = Phase.BREAK
    ∧ (runCycles (List.replicate 10 (1000, "punch")) initSingleState).phase = Phase.BREAK := by
  have h := singleCompletion_direct_to_BREAK completedSingleState 10 rfl rfl rfl
    (by decide) (by decide)
  exact ⟨h.1.1, h.1.2.1, h.1.2.2.2.1 (by decide), h.2.2.1⟩

/-- `handleConfirmStop` (TrainingScreen) together with the React consequences of leaving
TRAINING: `setPhase(COMPLETE)` is dispatched; unmounting the training effects runs their
cleanups, which clear the pending action timer and every combo strike timer; and the COMPLETE
effect records the end time if unset. No call on this path writes a history entry. -/
def handleConfirmStop (s : SchedulerState) : SchedulerState :=
  { s with phase := Phase.COMPLETE,
           actionTimerPending := false,
           comboTimersPending := 0,
           trainingEndTime := some (s.trainingEndTime.getD s.now) }

/-- A mid-training state: 4 of 10 hits done, a stimulus timer pending. -/
def midTrainingState : SchedulerState :=
  { initSingleState with hitsCompleted := 4, now := 9000 }

/-- Counterexample to C2: stopping mid-TRAINING with 4 partial hits cancels the timers and
moves to COMPLETE, but records no SessionHistoryEntry — the history stays exactly as it was
(here: empty), where the claim requires an entry holding the partial hit count. -/
theorem stop_records_no_history :
    (handleConfirmStop midTrainingState).phase = Phase.COMPLETE
    ∧ (handleConfirmStop midTrainingState).hitsCompleted = 4
    ∧ (handleConfirmStop midTrainingState).sessionHistory = []
    ∧ (handleConfirmStop midTrainingState).sessionHistory =
        midTrainingState.sessionHistory :=
  ⟨rfl, rfl, rfl, rfl⟩

/-- C2 (amended): confirming stop cancels all pending timers immediately (a further cycle
leaves the state untouched, so no further stimulus fires), preserves every counter accumulated
so far, sets the program end time and moves directly to COMPLETE — but records no
SessionHistoryEntry. -/
theorem handleConfirmStop_spec (s : SchedulerState) (interval : Int) (action : String) :
    (handleConfirmStop s).phase = Phase.COMPLETE
    ∧ (handleConfirmStop s).actionTimerPending = false
    ∧ (handleConfirmStop s).comboTimersPending = 0
    ∧ (handleConfirmStop s).hitsCompleted = s.hitsCompleted
    ∧ (handleConfirmStop s).combosCompleted = s.combosCompleted
    ∧ (handleConfirmStop s).currentSession = s.currentSession
    ∧ (handleConfirmStop s).sessionHistory = s.sessionHistory
    ∧ (handleConfirmStop s).trainingEndTime.isSome = true
    ∧ singleCycle interval action (handleConfirmStop s) = handleConfirmStop s := by
  refine ⟨rfl, rfl, rfl, rfl, rfl, rfl, rfl, rfl, ?_⟩
  unfold singleCycle
  rw [if_neg]
  rintro ⟨hph, -⟩
  simp [handleConfirmStop] at hph

/-- The history entry built by the combo-mode completion effect: its `totalHits` field is set
to `hitsCompleted` ("In combo mode, use actual hits"). -/
def comboSessionEntry (comboConfig : ComboConfig) (s : SchedulerState) : SessionHistoryEntry :=
  { mode := s.mode, trainingType := s.trainingType, difficultyId := s.difficultyId,
    hitsCompleted := s.hitsCompleted, totalHits := s.hitsCompleted,
    combosCompleted := some s.combosCompleted, totalCombos := some comboConfig.totalCombos,
    durationMs := s.now - s.sessionStartTime,
    sessionNumber := s.currentSession, totalSessions := s.numberOfSessions }

/-- The combo-mode session-completion effect of `TrainingApp`: when `combosCompleted` reaches
`totalCombos`, clear the pending rest timer and all combo strike timers, clear the action,
append `comboSessionEntry` and move to BREAK when sessions remain, else to COMPLETE. -/
def comboCompletionEffect (comboConfig : ComboConfig) (s : SchedulerState) : SchedulerState :=
  if s.phase = Phase.TRAINING ∧ s.trainingType = "combo" ∧
      comboConfig.totalCombos ≤ s.combosCompleted then
    let s1 := { s with actionTimerPending := false, comboTimersPending := 0,
                       currentAction := none,
                       sessionHistory :=
                         addToHistory (comboSessionEntry comboConfig s) s.sessionHistory }
    if s.currentSession < s.numberOfSessions then { s1 with phase := Phase.BREAK }
    else { s1 with phase := Phase.COMPLETE, trainingEndTime := some s.now }
  else s

/-- C10: every history entry recorded by the combo-mode completion effect satisfies
`totalHits = hitsCompleted`, so a completed combo session's completion rate is 100%: a
completing session has performed at least one strike (each sampled combo has
`getRandomComboSize ≥ comboSize.min ≥ 1` strikes), making its hit count positive. -/
theorem comboCompletion_entry_full (comboConfig : ComboConfig) (s : SchedulerState) (q : ℚ)
    (hph : s.phase = Phase.TRAINING) (hty : s.trainingType = "combo")
    (hdone : comboConfig.totalCombos ≤ s.combosCompleted)
    (hhits : 0 < s.hitsCompleted) :
    (comboCompletionEffect comboConfig s).sessionHistory =
        addToHistory (comboSessionEntry comboConfig s) s.sessionHistory
    ∧ (comboSessionEntry comboConfig s).totalHits = (comboSessionEntry comboConfig s).hitsCompleted
    ∧ (calculateSessionStats s.sessionStartTime s.now (comboSessionEntry comboConfig s).hitsCompleted
        (comboSessionEntry comboConfig s).totalHits).completionRate = 100
    ∧ (1 ≤ comboConfig.comboSize.min → comboConfig.comboSize.min ≤ comboConfig.comboSize.max →
        0 ≤ q → q < 1 → 1 ≤ getRandomComboSize comboConfig q) := by
  refine ⟨?_, rfl, ?_, ?_⟩
  · have hcond : s.phase = Phase.TRAINING ∧ s.trainingType = "combo" ∧
        comboConfig.totalCombos ≤ s.combosCompleted := ⟨hph, hty, hdone⟩
    unfold comboCompletionEffect
    rw [if_pos hcond]
    by_cases hlt : s.currentSession < s.numberOfSessions
    · rw [if_pos hlt]
    · rw [if_neg hlt]
  · show (calculateSessionStats s.sessionStartTime s.now s.hitsCompleted
      s.hitsCompleted).completionRate = 100
    unfold calculateSessionStats
    simp only [if_pos hhits]
    have hz : ((s.hitsCompleted : Int) : ℚ) ≠ 0 := by
      exact_mod_cast (by omega : s.hitsCompleted ≠ 0)
    rw [div_self hz]
    norm_num [jsRound]
  · intro h1 hle h0 hq1
    have := (floor_draw_bounds comboConfig.comboSize.min comboConfig.comboSize.max q
      hle h0 hq1).1
    unfold getRandomComboSize
    omega

/-- A combo-mode state at the instant the 15th combo was counted, 32 strikes performed. -/
def comboDoneState : SchedulerState :=
  { phase := Phase.TRAINING, mode := "both", trainingType := "combo",
    difficultyId := "normal", numberOfSessions := 1, currentSession := 1,
    hitsCompleted := 32, combosCompleted := 15, sessionTotalHits := none,
    currentAction := none, actionTimerPending := false, comboTimersPending := 0,
    sessionHistory := [], sessionStartTime := 0, trainingEndTime := none, now := 90000 }

/-- Witness for C10: the normal combo config at the concrete completed combo session. -/
theorem comboCompletion_entry_full_witness :
    (comboCompletionEffect ⟨"normal", ⟨1, 3⟩, ⟨400, 600⟩, ⟨3000, 4000⟩, 15⟩
        comboDoneState).sessionHistory =
      addToHistory (comboSessionEntry ⟨"normal", ⟨1, 3⟩, ⟨400, 600⟩, ⟨3000, 4000⟩, 15⟩
        comboDoneState) comboDoneState.sessionHistory
    ∧ (comboSessionEntry ⟨"normal", ⟨1, 3⟩, ⟨400, 600⟩, ⟨3000, 4000⟩, 15⟩
        comboDoneState).totalHits =
      (comboSessionEntry ⟨"normal", ⟨1, 3⟩, ⟨400, 600⟩, ⟨3000, 4000⟩, 15⟩
        comboDoneState).hitsCompleted
    ∧ (calculateSessionStats 0 90000
        (comboSessionEntry ⟨"normal", ⟨1, 3⟩, ⟨400, 600⟩, ⟨3000, 4000⟩, 15⟩
          comboDoneState).hitsCompleted
        (comboSessionEntry ⟨"normal", ⟨1, 3⟩, ⟨400, 600⟩, ⟨3000, 4000⟩, 15⟩
          comboDoneState).totalHits).completionRate = 100
    ∧ 1 ≤ getRandomComboSize ⟨"normal", ⟨1, 3⟩, ⟨400, 600⟩, ⟨3000, 4000⟩, 15⟩ (1/2) := by
  have h := comboCompletion_entry_full ⟨"normal", ⟨1, 3⟩, ⟨400, 600⟩, ⟨3000, 4000⟩, 15⟩
    comboDoneState (1/2) rfl rfl (by decide) (by decide)
  exact ⟨h.1, h.2.1, h.2.2.1, h.2.2.2 (by decide) (by decide) (by norm_num) (by norm_num)⟩

end CombatReflex
